import Mathlib

/- Verification development for the CareSphere backend: a shallow embedding of
the rule-based delirium risk engine (`rules_delirium.py`), the Arduino rolling
data store (`arduino_reader.py`), the FastAPI prediction service handlers
(`delirium_service.py`), and the synthetic data generator
(`generate_synthetic_delirium_data.py`). Python floats are modelled as
rationals; the external classifier artifact and the companion sensor API are
modelled parametrically. -/

set_option maxHeartbeats 1000000
set_option linter.unusedVariables false

/-- Embedding of `np.clip(x, lo, hi)` for scalars: `min(hi, max(x, lo))`. -/
def np_clip (x lo hi : ℚ) : ℚ := min hi (max x lo)

/-- Embedding of the `DeliriumRiskConfig` dataclass from `rules_delirium.py`. -/
structure DeliriumRiskConfig where
  noise_threshold_db : ℚ
  fever_threshold_c : ℚ
  tachy_threshold_bpm : ℚ
  high_age_threshold : ℚ
  circadian_ratio_threshold : ℚ
  base_risk : ℚ
  label_threshold : ℚ

/-- The dataclass field defaults: `DeliriumRiskConfig()`. -/
def defaultConfig : DeliriumRiskConfig :=
  { noise_threshold_db := 60
    fever_threshold_c := 38
    tachy_threshold_bpm := 100
    high_age_threshold := 75
    circadian_ratio_threshold := 1.5
    base_risk := 0.05
    label_threshold := 0.50 }

/-- Result triple of `compute_delirium_risk_row`: risk, label, and the
contribution dict (modelled as an insertion-ordered association list). -/
structure RiskResult where
  risk : ℚ
  label : ℕ
  contributions : List (String × ℚ)

/-- One guarded accumulation step of the rule engine: when `cond` holds it
performs `risk += extra; contributions[key] = extra` on the running state. -/
def riskStep (cond : Prop) [Decidable cond] (key : String) (extra : ℚ)
    (st : ℚ × List (String × ℚ)) : ℚ × List (String × ℚ) :=
  if cond then (st.1 + extra, st.2 ++ [(key, extra)]) else st

/-- The accumulation phase of `compute_delirium_risk_row` (steps 1-5 of the
source): starting from `(cfg.base_risk, {})`, apply the six guarded factor
rules in source order. -/
def riskAccum (sound_mean_db sound_night_db light_day_lux light_night_lux
    hr_mean temp_mean age : ℚ) (cfg : DeliriumRiskConfig) :
    ℚ × List (String × ℚ) :=
  let st1 := riskStep (sound_night_db > cfg.noise_threshold_db) "night_noise"
    (min 0.25 ((sound_night_db - cfg.noise_threshold_db) / 40)) (cfg.base_risk, [])
  let st2 := riskStep (sound_mean_db > cfg.noise_threshold_db) "overall_noise"
    (min 0.10 ((sound_mean_db - cfg.noise_threshold_db) / 50)) st1
  let st3 := riskStep ((light_day_lux + 1) / (light_night_lux + 1) < cfg.circadian_ratio_threshold)
    "circadian_light" 0.20 st2
  let st4 := riskStep (temp_mean ≥ cfg.fever_threshold_c) "fever"
    (min 0.20 ((temp_mean - cfg.fever_threshold_c) / 2)) st3
  let st5 := riskStep (hr_mean ≥ cfg.tachy_threshold_bpm) "tachycardia"
    (min 0.20 ((hr_mean - cfg.tachy_threshold_bpm) / 40)) st4
  riskStep (age ≥ cfg.high_age_threshold) "age" 0.20 st5

/-- Embedding of `compute_delirium_risk_row`: accumulate the factor
contributions, clamp the risk to `[0, 1]` with `np.clip`, and derive the
binary label from `cfg.label_threshold`. -/
def compute_delirium_risk_row (sound_mean_db sound_night_db light_day_lux
    light_night_lux hr_mean temp_mean age : ℚ) (cfg : DeliriumRiskConfig) :
    RiskResult :=
  let st := riskAccum sound_mean_db sound_night_db light_day_lux light_night_lux
    hr_mean temp_mean age cfg
  let risk := np_clip st.1 0 1
  let label : ℕ := if risk ≥ cfg.label_threshold then 1 else 0
  ⟨risk, label, st.2⟩

lemma compute_risk_def (s sn ld ln hr t a : ℚ) (cfg : DeliriumRiskConfig) :
    (compute_delirium_risk_row s sn ld ln hr t a cfg).risk =
      np_clip (riskAccum s sn ld ln hr t a cfg).1 0 1 := rfl

lemma compute_contrib_def (s sn ld ln hr t a : ℚ) (cfg : DeliriumRiskConfig) :
    (compute_delirium_risk_row s sn ld ln hr t a cfg).contributions =
      (riskAccum s sn ld ln hr t a cfg).2 := rfl

lemma compute_label_def (s sn ld ln hr t a : ℚ) (cfg : DeliriumRiskConfig) :
    (compute_delirium_risk_row s sn ld ln hr t a cfg).label =
      if np_clip (riskAccum s sn ld ln hr t a cfg).1 0 1 ≥ cfg.label_threshold
      then 1 else 0 := rfl

lemma riskStep_sum (cond : Prop) [Decidable cond] (key : String) (extra b : ℚ)
    (st : ℚ × List (String × ℚ)) (h : st.1 = b + (st.2.map Prod.snd).sum) :
    (riskStep cond key extra st).1 =
      b + (((riskStep cond key extra st).2).map Prod.snd).sum := by
  unfold riskStep
  split
  · simp [h]; ring
  · exact h

/-- The accumulated risk is the base risk plus the sum of the recorded
contribution values. -/
lemma riskAccum_fst (s sn ld ln hr t a : ℚ) (cfg : DeliriumRiskConfig) :
    (riskAccum s sn ld ln hr t a cfg).1 =
      cfg.base_risk + (((riskAccum s sn ld ln hr t a cfg).2).map Prod.snd).sum := by
  unfold riskAccum
  apply riskStep_sum
  apply riskStep_sum
  apply riskStep_sum
  apply riskStep_sum
  apply riskStep_sum
  apply riskStep_sum
  simp

lemma np_clip_nonneg (x : ℚ) : 0 ≤ np_clip x 0 1 :=
  le_min (by norm_num) (le_max_right x 0)

lemma np_clip_le_one (x : ℚ) : np_clip x 0 1 ≤ 1 := min_le_left 1 _

lemma riskStep_pos {cond : Prop} [Decidable cond] (h : cond) (key : String)
    (extra : ℚ) (st : ℚ × List (String × ℚ)) :
    riskStep cond key extra st = (st.1 + extra, st.2 ++ [(key, extra)]) := if_pos h

lemma riskStep_neg {cond : Prop} [Decidable cond] (h : ¬cond) (key : String)
    (extra : ℚ) (st : ℚ × List (String × ℚ)) :
    riskStep cond key extra st = st := if_neg h

lemma riskStep_fst (cond : Prop) [Decidable cond] (key : String) (extra : ℚ)
    (st : ℚ × List (String × ℚ)) :
    (riskStep cond key extra st).1 = st.1 + (if cond then extra else 0) := by
  unfold riskStep; split <;> simp

lemma riskStep_snd (cond : Prop) [Decidable cond] (key : String) (extra : ℚ)
    (st : ℚ × List (String × ℚ)) :
    (riskStep cond key extra st).2 = st.2 ++ (if cond then [(key, extra)] else []) := by
  unfold riskStep; split <;> simp

lemma riskStep_mem_keys {cond : Prop} [Decidable cond] {key : String} {extra : ℚ}
    {st : ℚ × List (String × ℚ)} {p : String × ℚ}
    (hp : p ∈ (riskStep cond key extra st).2) : p.1 = key ∨ p ∈ st.2 := by
  rw [riskStep_snd] at hp
  rcases List.mem_append.mp hp with h | h
  · exact Or.inr h
  · split at h
    · simp only [List.mem_singleton] at h
      exact Or.inl (by rw [h])
    · simp at h

lemma lookup_append_of_keys_ne {β : Type} (l₁ l₂ : List (String × β)) (k : String)
    (h : ∀ p ∈ l₁, p.1 ≠ k) : (l₁ ++ l₂).lookup k = l₂.lookup k := by
  induction l₁ with
  | nil => simp
  | cons p l ih =>
    have hk : (k == p.1) = false := by
      have := h p (List.mem_cons_self p l)
      exact beq_eq_false_iff_ne.mpr fun he => this he.symm
    simp only [List.cons_append, List.lookup, hk]
    exact ih fun q hq => h q (List.mem_cons_of_mem p hq)

/-- C1: with the default configuration the returned risk is always
`base_risk` plus the sum of the per-factor contributions, clamped to `[0,1]`;
and any input with age at or above 75, temperature exactly 2 degrees over the
fever threshold, heart rate exactly 40 bpm over the tachycardia threshold, and
the remaining factors below their thresholds scores exactly `0.65` with
label `1`. -/
theorem risk_additive_composition :
    (∀ s sn ld ln hr t a : ℚ, ∀ cfg : DeliriumRiskConfig,
      (compute_delirium_risk_row s sn ld ln hr t a cfg).risk =
        np_clip (cfg.base_risk +
          (((compute_delirium_risk_row s sn ld ln hr t a cfg).contributions).map
            Prod.snd).sum) 0 1) ∧
    (∀ s sn ld ln a : ℚ,
      s ≤ defaultConfig.noise_threshold_db →
      sn ≤ defaultConfig.noise_threshold_db →
      defaultConfig.circadian_ratio_threshold ≤ (ld + 1) / (ln + 1) →
      defaultConfig.high_age_threshold ≤ a →
      (compute_delirium_risk_row s sn ld ln
          (defaultConfig.tachy_threshold_bpm + 40)
          (defaultConfig.fever_threshold_c + 2) a defaultConfig).risk = 0.65 ∧
      (compute_delirium_risk_row s sn ld ln
          (defaultConfig.tachy_threshold_bpm + 40)
          (defaultConfig.fever_threshold_c + 2) a defaultConfig).label = 1) := by
  constructor
  · intro s sn ld ln hr t a cfg
    rw [compute_risk_def, compute_contrib_def, riskAccum_fst]
  · intro s sn ld ln a h1 h2 h3 h4
    simp only [defaultConfig] at h1 h2 h3 h4 ⊢
    have hfever : ((38 : ℚ) + 2) ≥ 38 := by norm_num
    have htachy : ((100 : ℚ) + 40) ≥ 100 := by norm_num
    constructor
    · rw [compute_risk_def]
      simp only [riskAccum, defaultConfig, riskStep_pos h4, riskStep_pos hfever,
        riskStep_pos htachy, riskStep_neg (not_lt.mpr h2), riskStep_neg (not_lt.mpr h1),
        riskStep_neg (not_lt.mpr h3)]
      norm_num [np_clip, min_def, max_def]
    · rw [compute_label_def]
      simp only [riskAccum, defaultConfig, riskStep_pos h4, riskStep_pos hfever,
        riskStep_pos htachy, riskStep_neg (not_lt.mpr h2), riskStep_neg (not_lt.mpr h1),
        riskStep_neg (not_lt.mpr h3)]
      norm_num [np_clip, min_def, max_def]

/-- Witness for C1: concrete below-threshold noise and light values together
with the peak fever, tachycardia, and age values give risk `0.65`, label `1`. -/
theorem risk_additive_composition_witness :
    (compute_delirium_risk_row 50 50 500 10
        (defaultConfig.tachy_threshold_bpm + 40)
        (defaultConfig.fever_threshold_c + 2) 80 defaultConfig).risk = 0.65 ∧
    (compute_delirium_risk_row 50 50 500 10
        (defaultConfig.tachy_threshold_bpm + 40)
        (defaultConfig.fever_threshold_c + 2) 80 defaultConfig).label = 1 :=
  risk_additive_composition.2 50 50 500 10 80
    (by norm_num [defaultConfig]) (by norm_num [defaultConfig])
    (by norm_num [defaultConfig]) (by norm_num [defaultConfig])

/-- C2: for every numeric input and configuration the returned risk lies in
the closed interval `[0, 1]`. -/
theorem risk_range_invariant (s sn ld ln hr t a : ℚ) (cfg : DeliriumRiskConfig) :
    0 ≤ (compute_delirium_risk_row s sn ld ln hr t a cfg).risk ∧
    (compute_delirium_risk_row s sn ld ln hr t a cfg).risk ≤ 1 := by
  rw [compute_risk_def]
  exact ⟨np_clip_nonneg _, np_clip_le_one _⟩

/-- C3: the returned label is `1` exactly when the clamped risk is at or above
the configuration's `label_threshold`, and the label is always `1` or `0`. -/
theorem label_consistency (s sn ld ln hr t a : ℚ) (cfg : DeliriumRiskConfig) :
    ((compute_delirium_risk_row s sn ld ln hr t a cfg).label = 1 ↔
      (compute_delirium_risk_row s sn ld ln hr t a cfg).risk ≥ cfg.label_threshold) ∧
    ((compute_delirium_risk_row s sn ld ln hr t a cfg).label = 1 ∨
      (compute_delirium_risk_row s sn ld ln hr t a cfg).label = 0) := by
  rw [compute_label_def, compute_risk_def]
  constructor
  · split
    · simp [*]
    · simp [*]
  · split
    · exact Or.inl rfl
    · exact Or.inr rfl

lemma riskAccum_prefix_keys (s sn ld ln : ℚ) (cfg : DeliriumRiskConfig)
    (p : String × ℚ)
    (hp : p ∈ (riskStep ((ld + 1) / (ln + 1) < cfg.circadian_ratio_threshold)
      "circadian_light" 0.20
      (riskStep (s > cfg.noise_threshold_db) "overall_noise"
        (min 0.10 ((s - cfg.noise_threshold_db) / 50))
        (riskStep (sn > cfg.noise_threshold_db) "night_noise"
          (min 0.25 ((sn - cfg.noise_threshold_db) / 40))
          (cfg.base_risk, [])))).2) :
    p.1 = "circadian_light" ∨ p.1 = "overall_noise" ∨ p.1 = "night_noise" := by
  rcases riskStep_mem_keys hp with h | hp
  · exact Or.inl h
  rcases riskStep_mem_keys hp with h | hp
  · exact Or.inr (Or.inl h)
  rcases riskStep_mem_keys hp with h | hp
  · exact Or.inr (Or.inr h)
  · simp at hp

/-- C10: at a temperature exactly equal to the fever threshold the engine
records a `"fever"` contribution of `0` and the risk is the same as just below
the threshold; symmetrically for a heart rate exactly at the tachycardia
threshold — so a key present in the contribution map need not raise the
risk. -/
theorem zero_valued_contribution (s sn ld ln hr t a : ℚ) (cfg : DeliriumRiskConfig) :
    ((compute_delirium_risk_row s sn ld ln hr cfg.fever_threshold_c a
        cfg).contributions.lookup "fever" = some 0 ∧
     (compute_delirium_risk_row s sn ld ln hr cfg.fever_threshold_c a cfg).risk =
       (compute_delirium_risk_row s sn ld ln hr (cfg.fever_threshold_c - 1) a
         cfg).risk) ∧
    ((compute_delirium_risk_row s sn ld ln cfg.tachy_threshold_bpm t a
        cfg).contributions.lookup "tachycardia" = some 0 ∧
     (compute_delirium_risk_row s sn ld ln cfg.tachy_threshold_bpm t a cfg).risk =
       (compute_delirium_risk_row s sn ld ln (cfg.tachy_threshold_bpm - 1) t a
         cfg).risk) := by
  have hfe : min (0.20 : ℚ) ((cfg.fever_threshold_c - cfg.fever_threshold_c) / 2) = 0 := by
    norm_num
  have hta : min (0.20 : ℚ) ((cfg.tachy_threshold_bpm - cfg.tachy_threshold_bpm) / 40) = 0 := by
    norm_num
  refine ⟨⟨?_, ?_⟩, ?_, ?_⟩
  · rw [compute_contrib_def]
    simp only [riskAccum]
    rw [riskStep_pos (le_refl cfg.fever_threshold_c), hfe, riskStep_snd, riskStep_snd]
    simp only [List.append_assoc]
    rw [lookup_append_of_keys_ne]
    · simp [List.lookup]
    · intro p hp
      rcases riskAccum_prefix_keys s sn ld ln cfg p hp with h | h | h <;>
        simp [h]
  · rw [compute_risk_def, compute_risk_def]
    simp only [riskAccum, riskStep_fst]
    rw [if_pos (le_refl cfg.fever_threshold_c), hfe,
      if_neg (show ¬cfg.fever_threshold_c - 1 ≥ cfg.fever_threshold_c by
        intro h; linarith)]
  · rw [compute_contrib_def]
    simp only [riskAccum]
    rw [riskStep_pos (le_refl cfg.tachy_threshold_bpm), hta, riskStep_snd]
    simp only [List.append_assoc]
    rw [lookup_append_of_keys_ne]
    · simp [List.lookup]
    · intro p hp
      rcases riskStep_mem_keys hp with h | hp
      · simp [h]
      rcases riskAccum_prefix_keys s sn ld ln cfg p hp with h | h | h <;>
        simp [h]
  · rw [compute_risk_def, compute_risk_def]
    simp only [riskAccum, riskStep_fst]
    rw [if_pos (le_refl cfg.tachy_threshold_bpm), hta,
      if_neg (show ¬cfg.tachy_threshold_bpm - 1 ≥ cfg.tachy_threshold_bpm by
        intro h; linarith)]

/-- A live sensor sample from the Arduino serial link: the JSON fields
`light`, `sound`, `temperature`, `heart_rate` used by the data store. -/
structure ArduinoSample where
  light : ℚ
  sound : ℚ
  temperature : ℚ
  heart_rate : ℚ
deriving DecidableEq

/-- Embedding of `ArduinoDataStore` from `arduino_reader.py`: a bounded
rolling buffer (`deque(maxlen=max_samples)`) plus the latest sample. -/
structure ArduinoDataStore where
  maxSamples : ℕ
  samples : List ArduinoSample
  latest : Option ArduinoSample
deriving DecidableEq

/-- `ArduinoDataStore(max_samples)`: empty buffer, no latest sample. -/
def mkArduinoDataStore (maxSamples : ℕ) : ArduinoDataStore :=
  ⟨maxSamples, [], none⟩

/-- Embedding of `add_sample`: append to the deque (evicting from the front
when over capacity, as `deque(maxlen=...)` does) and update `latest`. -/
def ArduinoDataStore.add_sample (st : ArduinoDataStore) (s : ArduinoSample) :
    ArduinoDataStore :=
  ⟨st.maxSamples,
   if st.maxSamples < (st.samples ++ [s]).length
   then (st.samples ++ [s]).drop ((st.samples ++ [s]).length - st.maxSamples)
   else st.samples ++ [s],
   some s⟩

/-- Embedding of `get_latest`. -/
def ArduinoDataStore.get_latest (st : ArduinoDataStore) : Option ArduinoSample :=
  st.latest

/-- The dict returned by `get_aggregated_stats` when samples exist. -/
structure AggregatedStats where
  light_mean : ℚ
  sound_mean : ℚ
  temp_mean : ℚ
  hr_mean : ℚ
  sample_count : ℕ
deriving DecidableEq

/-- Embedding of `get_aggregated_stats(minutes=5)`: `None` on an empty
buffer, otherwise the arithmetic means of the four fields over all buffered
samples plus the sample count. The `minutes` parameter is accepted but unused
by the body, as in the source. -/
def ArduinoDataStore.get_aggregated_stats (st : ArduinoDataStore) (minutes : ℕ) :
    Option AggregatedStats :=
  if st.samples = [] then none
  else
    let light_values := st.samples.map ArduinoSample.light
    let sound_values := st.samples.map ArduinoSample.sound
    let temp_values := st.samples.map ArduinoSample.temperature
    let hr_values := st.samples.map ArduinoSample.heart_rate
    some ⟨light_values.sum / (light_values.length : ℚ),
          sound_values.sum / (sound_values.length : ℚ),
          temp_values.sum / (temp_values.length : ℚ),
          hr_values.sum / (hr_values.length : ℚ),
          st.samples.length⟩

lemma add_sample_samples (st : ArduinoDataStore) (s : ArduinoSample) :
    (st.add_sample s).samples =
      if st.maxSamples < st.samples.length + 1
      then (st.samples ++ [s]).drop (st.samples.length + 1 - st.maxSamples)
      else st.samples ++ [s] := by
  simp [ArduinoDataStore.add_sample]

lemma foldl_add_sample_samples :
    ∀ (xs : List ArduinoSample) (st : ArduinoDataStore) (c : ℕ),
      st.maxSamples = c → st.samples.length ≤ c →
      (xs.foldl ArduinoDataStore.add_sample st).samples =
        (st.samples ++ xs).drop (st.samples.length + xs.length - c) := by
  intro xs
  induction xs with
  | nil =>
    intro st c hm hl
    simp [Nat.sub_eq_zero_of_le hl]
  | cons x xs ih =>
    intro st c hm hl
    rw [List.foldl_cons]
    by_cases hc : c < st.samples.length + 1
    · have h1 : (st.add_sample x).samples =
          (st.samples ++ [x]).drop (st.samples.length + 1 - c) := by
        rw [add_sample_samples, hm, if_pos hc]
      have h1len : (st.add_sample x).samples.length = c := by
        rw [h1]
        simp only [List.length_drop, List.length_append, List.length_singleton]
        omega
      rw [ih (st.add_sample x) c hm (le_of_eq h1len), h1,
        ← List.drop_append_of_le_length
          (by simp only [List.length_append, List.length_singleton]; omega),
        List.drop_drop]
      have hidx : st.samples.length + 1 - c +
          ((List.drop (st.samples.length + 1 - c) (st.samples ++ [x])).length +
            xs.length - c) = st.samples.length + (x :: xs).length - c := by
        simp only [List.length_drop, List.length_append, List.length_singleton,
          List.length_cons, List.length_nil]
        omega
      rw [hidx, List.append_assoc, List.singleton_append]
    · have h1 : (st.add_sample x).samples = st.samples ++ [x] := by
        rw [add_sample_samples, hm, if_neg hc]
      have h1len : (st.add_sample x).samples.length ≤ c := by
        rw [h1]
        simp only [List.length_append, List.length_singleton]
        omega
      rw [ih (st.add_sample x) c hm h1len, h1]
      have hidx : (st.samples ++ [x]).length + xs.length - c =
          st.samples.length + (x :: xs).length - c := by
        simp only [List.length_append, List.length_singleton, List.length_cons,
          List.length_nil]
        omega
      rw [hidx, List.append_assoc, List.singleton_append]

lemma foldl_add_sample_latest :
    ∀ (xs : List ArduinoSample) (st : ArduinoDataStore), xs ≠ [] →
      (xs.foldl ArduinoDataStore.add_sample st).latest = xs.getLast? := by
  intro xs
  induction xs with
  | nil => intro st h; exact absurd rfl h
  | cons x xs ih =>
    intro st _
    rw [List.foldl_cons]
    rcases eq_or_ne xs [] with he | he
    · subst he
      simp [ArduinoDataStore.add_sample]
    · rw [ih _ he]
      cases xs with
      | nil => exact absurd rfl he
      | cons y ys => simp

/-- C5: `get_aggregated_stats` ignores its `minutes` parameter — any two
lookback values give identical results — and on a non-empty buffer the result
is exactly the arithmetic mean of the four fields over all buffered samples
together with the sample count. -/
theorem agg_stats_no_time_filter (st : ArduinoDataStore) (m1 m2 : ℕ) :
    st.get_aggregated_stats m1 = st.get_aggregated_stats m2 ∧
    (st.samples ≠ [] →
      st.get_aggregated_stats m1 = some
        ⟨(st.samples.map ArduinoSample.light).sum / (st.samples.length : ℚ),
         (st.samples.map ArduinoSample.sound).sum / (st.samples.length : ℚ),
         (st.samples.map ArduinoSample.temperature).sum / (st.samples.length : ℚ),
         (st.samples.map ArduinoSample.heart_rate).sum / (st.samples.length : ℚ),
         st.samples.length⟩) := by
  constructor
  · rfl
  · intro h
    simp only [ArduinoDataStore.get_aggregated_stats, if_neg h, List.length_map]

/-- Witness for C5: a single-sample buffer queried with lookback windows of 5
and 500 minutes gives the same aggregate, namely that sample's values. -/
theorem agg_stats_no_time_filter_witness :
    (ArduinoDataStore.mk 100 [⟨3, 7, 21, 60⟩] (some ⟨3, 7, 21, 60⟩)).get_aggregated_stats 5 =
      (ArduinoDataStore.mk 100 [⟨3, 7, 21, 60⟩] (some ⟨3, 7, 21, 60⟩)).get_aggregated_stats 500 ∧
    (ArduinoDataStore.mk 100 [⟨3, 7, 21, 60⟩] (some ⟨3, 7, 21, 60⟩)).get_aggregated_stats 5 = some
      ⟨(([⟨3, 7, 21, 60⟩] : List ArduinoSample).map ArduinoSample.light).sum / (([⟨3, 7, 21, 60⟩] : List ArduinoSample).length : ℚ),
       (([⟨3, 7, 21, 60⟩] : List ArduinoSample).map ArduinoSample.sound).sum / (([⟨3, 7, 21, 60⟩] : List ArduinoSample).length : ℚ),
       (([⟨3, 7, 21, 60⟩] : List ArduinoSample).map ArduinoSample.temperature).sum / (([⟨3, 7, 21, 60⟩] : List ArduinoSample).length : ℚ),
       (([⟨3, 7, 21, 60⟩] : List ArduinoSample).map ArduinoSample.heart_rate).sum / (([⟨3, 7, 21, 60⟩] : List ArduinoSample).length : ℚ),
       ([⟨3, 7, 21, 60⟩] : List ArduinoSample).length⟩ :=
  ⟨(agg_stats_no_time_filter (ArduinoDataStore.mk 100 [⟨3, 7, 21, 60⟩] (some ⟨3, 7, 21, 60⟩)) 5 500).1,
   (agg_stats_no_time_filter (ArduinoDataStore.mk 100 [⟨3, 7, 21, 60⟩] (some ⟨3, 7, 21, 60⟩)) 5 500).2
     (by decide)⟩

/-- C6: starting from an empty store of capacity 100, adding any 150 samples
leaves exactly the last 100 of them, in order (the oldest 50 evicted), and
`latest` is the 150th sample added. -/
theorem rolling_buffer_eviction (xs : List ArduinoSample) (h : xs.length = 150) :
    (xs.foldl ArduinoDataStore.add_sample (mkArduinoDataStore 100)).samples =
      xs.drop 50 ∧
    (xs.foldl ArduinoDataStore.add_sample (mkArduinoDataStore 100)).samples.length
      = 100 ∧
    (xs.foldl ArduinoDataStore.add_sample (mkArduinoDataStore 100)).latest =
      xs[149]? := by
  have hs : (xs.foldl ArduinoDataStore.add_sample (mkArduinoDataStore 100)).samples
      = xs.drop 50 := by
    rw [foldl_add_sample_samples xs (mkArduinoDataStore 100) 100 rfl (by simp [mkArduinoDataStore])]
    simp [mkArduinoDataStore, h]
  refine ⟨hs, ?_, ?_⟩
  · rw [hs, List.length_drop, h]
  · rw [foldl_add_sample_latest xs _ (by intro he; rw [he] at h; simp at h),
      List.getLast?_eq_getElem?, h]

/-- Concrete sequence of 150 pairwise-distinct samples for the C6 witness. -/
def sampleSeq : List ArduinoSample :=
  (List.range 150).map fun (i : ℕ) => ⟨(i : ℚ), (i : ℚ) + 1, (i : ℚ) + 2, (i : ℚ) + 3⟩

/-- Witness for C6: the 150-sample concrete sequence leaves the last 100
samples and reports the 150th as latest. -/
theorem rolling_buffer_eviction_witness :
    (sampleSeq.foldl ArduinoDataStore.add_sample (mkArduinoDataStore 100)).samples =
      sampleSeq.drop 50 ∧
    (sampleSeq.foldl ArduinoDataStore.add_sample (mkArduinoDataStore 100)).samples.length
      = 100 ∧
    (sampleSeq.foldl ArduinoDataStore.add_sample (mkArduinoDataStore 100)).latest =
      sampleSeq[149]? :=
  rolling_buffer_eviction sampleSeq
    (by simp only [sampleSeq, List.length_map, List.length_range])

/-- C7: a newly constructed store returns the "no data" result (`None`) from
both `get_latest` and `get_aggregated_stats`, and the mean computation is
reached exactly when at least one sample is buffered. -/
theorem empty_buffer_no_data (c minutes : ℕ) (st : ArduinoDataStore) :
    (mkArduinoDataStore c).get_latest = none ∧
    (mkArduinoDataStore c).get_aggregated_stats minutes = none ∧
    ((st.get_aggregated_stats minutes).isSome ↔ st.samples ≠ []) := by
  refine ⟨rfl, rfl, ?_⟩
  by_cases h : st.samples = [] <;>
    simp [ArduinoDataStore.get_aggregated_stats, h]

/-- Outcome of one HTTP request to the companion sensor API: either a decoded
payload, or any `httpx.HTTPError` (unreachable, timeout within the 5-second
bound, or a non-success status surfaced by `raise_for_status`), carried as the
error's text. -/
inductive UpstreamResult (α : Type) where
  | ok (payload : α)
  | err (msg : String)

/-- An `HTTPException(status_code, detail)` raised by a handler. -/
structure HTTPErrorResponse where
  status_code : ℕ
  detail : String
deriving DecidableEq

/-- The fixed timeout passed to every `client.get` call in
`delirium_service.py`. -/
def sensor_api_timeout_seconds : ℚ := 5

/-- The fields of the companion API's `/api/sensors/stats` payload that
`predict_delirium_from_arduino` reads. -/
structure SensorStats where
  sound_mean : ℚ
  light_mean : ℚ
  temp_mean : ℚ
deriving DecidableEq

/-- The seven-feature vector assembled for the classifier (the model's
feature order, per the feature-list artifact). -/
structure FeatureVector where
  sound_mean_db : ℚ
  sound_night_db : ℚ
  light_day_lux : ℚ
  light_night_lux : ℚ
  hr_mean : ℚ
  temp_mean : ℚ
  age : ℚ
deriving DecidableEq

/-- Modelled from the spec: the external feature-list artifact
(`delirium_features.joblib`), the ordered feature names fixed at training
time. -/
def feature_cols : List String :=
  ["sound_mean_db", "sound_night_db", "light_day_lux", "light_night_lux",
   "hr_mean", "temp_mean", "age"]

/-- The external trained classifier artifact, held parametrically: a
probability-of-positive-class predictor on ordered feature vectors plus
per-feature importance scores. -/
structure Classifier where
  predict_proba : FeatureVector → ℚ
  feature_importances : List ℚ

/-- Embedding of `risk_level_from_score`. -/
def risk_level_from_score (score : ℚ) : String :=
  if score < 0.2 then "LOW"
  else if score < 0.5 then "MEDIUM"
  else "HIGH"

/-- Embedding of the `top_features` computation: pair feature names with
importances, sort descending by importance (stably, as Python `sorted`
does), take the first three names. -/
def top_three_features (clf : Classifier) : List String :=
  (((feature_cols.zip clf.feature_importances).mergeSort
    (fun p q => q.2 ≤ p.2)).take 3).map Prod.fst

/-- The `DeliriumOutput` response model. -/
structure DeliriumOutput where
  risk_score : ℚ
  risk_level : String
  label : ℕ
  top_features : List String

/-- Default of the `age` query parameter of
`/predict-delirium/from-arduino`. -/
def from_arduino_default_age : ℚ := 75.0

/-- Embedding of the `input_dict` built by `predict_delirium_from_arduino`:
day and night sound both from `sound_mean`, day and night light both from
`light_mean`, heart rate hardcoded to 75.0, temperature from `temp_mean`,
age from the query parameter. -/
def arduino_input_dict (stats : SensorStats) (age : ℚ) : FeatureVector :=
  { sound_mean_db := stats.sound_mean
    sound_night_db := stats.sound_mean
    light_day_lux := stats.light_mean
    light_night_lux := stats.light_mean
    hr_mean := 75.0
    temp_mean := stats.temp_mean
    age := age }

/-- Embedding of the `/sensor-data/latest` handler: pass the upstream payload
through, or raise `HTTPException(503, "Sensor API unavailable: ...")`. -/
def get_latest_sensor_data (α : Type) (resp : UpstreamResult α) :
    Except HTTPErrorResponse α :=
  match resp with
  | .ok payload => .ok payload
  | .err e => .error ⟨503, "Sensor API unavailable: " ++ e⟩

/-- Embedding of the `/sensor-data/stats` handler (same structure as the
latest-reading handler). -/
def get_sensor_stats (α : Type) (resp : UpstreamResult α) :
    Except HTTPErrorResponse α :=
  match resp with
  | .ok payload => .ok payload
  | .err e => .error ⟨503, "Sensor API unavailable: " ++ e⟩

/-- Embedding of the `/predict-delirium/from-arduino` handler: fetch stats
(503 on upstream failure), build `input_dict`, run the classifier, derive
label, level, and top features. -/
def predict_delirium_from_arduino (clf : Classifier)
    (stats_response : UpstreamResult SensorStats) (age : ℚ) :
    Except HTTPErrorResponse DeliriumOutput :=
  match stats_response with
  | .err e => .error ⟨503, "Sensor API unavailable: " ++ e⟩
  | .ok stats =>
    let input_dict := arduino_input_dict stats age
    let proba := clf.predict_proba input_dict
    let label : ℕ := if proba ≥ 0.5 then 1 else 0
    let level := risk_level_from_score proba
    .ok ⟨proba, level, label, top_three_features clf⟩

/-- C4: the feature vector handed to the classifier by the live-prediction
endpoint duplicates `sound_mean` into both sound features and `light_mean`
into both light features, takes `temp_mean` from the companion API, fixes
`hr_mean` at 75.0, and takes `age` from the request (default 75.0); the
handler feeds exactly that vector to the classifier. -/
theorem arduino_feature_mapping (stats : SensorStats) (age : ℚ) (clf : Classifier) :
    (arduino_input_dict stats age).sound_mean_db = stats.sound_mean ∧
    (arduino_input_dict stats age).sound_night_db = stats.sound_mean ∧
    (arduino_input_dict stats age).light_day_lux = stats.light_mean ∧
    (arduino_input_dict stats age).light_night_lux = stats.light_mean ∧
    (arduino_input_dict stats age).temp_mean = stats.temp_mean ∧
    (arduino_input_dict stats age).hr_mean = 75.0 ∧
    (arduino_input_dict stats age).age = age ∧
    (arduino_input_dict stats age).sound_mean_db =
      (arduino_input_dict stats age).sound_night_db ∧
    (arduino_input_dict stats age).light_day_lux =
      (arduino_input_dict stats age).light_night_lux ∧
    from_arduino_default_age = 75.0 ∧
    predict_delirium_from_arduino clf (.ok stats) age = .ok
      ⟨clf.predict_proba (arduino_input_dict stats age),
       risk_level_from_score (clf.predict_proba (arduino_input_dict stats age)),
       if clf.predict_proba (arduino_input_dict stats age) ≥ 0.5 then 1 else 0,
       top_three_features clf⟩ :=
  ⟨rfl, rfl, rfl, rfl, rfl, rfl, rfl, rfl, rfl, rfl, rfl⟩

/-- C8: whenever the upstream call fails, each of the three
companion-API-backed handlers responds with status 503 whose detail carries
the upstream error text (prefixed "Sensor API unavailable: "), never an `ok`
payload; the upstream timeout bound is 5 seconds. -/
theorem upstream_failure_503 (e : String) (clf : Classifier) (age : ℚ) :
    get_latest_sensor_data SensorStats (.err e) =
      .error ⟨503, "Sensor API unavailable: " ++ e⟩ ∧
    get_sensor_stats SensorStats (.err e) =
      .error ⟨503, "Sensor API unavailable: " ++ e⟩ ∧
    predict_delirium_from_arduino clf (.err e) age =
      .error ⟨503, "Sensor API unavailable: " ++ e⟩ ∧
    sensor_api_timeout_seconds = 5 :=
  ⟨rfl, rfl, rfl, rfl⟩

/-- Number of generated records (`N = 100_000`). -/
def N : ℕ := 100000

/-- Position of row `i` among the rows selected by `mask`: numpy's
boolean-mask assignment `arr[mask] += extras` pairs the j-th selected row
with the j-th element of the perturbation array. -/
def maskRank (mask : ℕ → Bool) (i : ℕ) : ℕ :=
  ((List.range i).filter fun j => mask j).length

/-- The random draws of `generate_synthetic_delirium_data.py`, abstracted as
input streams (one per `rng` call); every claim is proved for all draws. -/
structure GenDraws where
  patient_ids : ℕ → ℤ
  sound_mean_db : ℕ → ℚ
  sound_night_db : ℕ → ℚ
  mask_noisy_night : ℕ → Bool
  noisy_night_extra : ℕ → ℚ
  light_day_lux : ℕ → ℚ
  light_night_lux : ℕ → ℚ
  mask_circadian_bad : ℕ → Bool
  circadian_day_lux : ℕ → ℚ
  circadian_night_lux : ℕ → ℚ
  hr_mean : ℕ → ℚ
  mask_tachy : ℕ → Bool
  tachy_extra : ℕ → ℚ
  temp_mean : ℕ → ℚ
  mask_fever : ℕ → Bool
  fever_extra : ℕ → ℚ
  age : ℕ → ℚ

/-- One row of the generated table after labeling, in CSV column order. -/
structure Row where
  patient_id : ℤ
  window_id : ℕ
  sound_mean_db : ℚ
  sound_night_db : ℚ
  light_day_lux : ℚ
  light_night_lux : ℚ
  hr_mean : ℚ
  temp_mean : ℚ
  age : ℚ
  delirium_risk : ℚ
  delirium_label : ℕ

/-- Row `i` of the generated table: apply the noisy-night, circadian-bad
(replacement), tachycardia, and fever subpopulation injections, clamp age to
`[18, 100]`, then label with the default-configuration rule engine
(`compute_delirium_risk_df` applied row-wise). -/
def genRow (d : GenDraws) (i : ℕ) : Row :=
  let sound_mean_db := d.sound_mean_db i
  let sound_night_db := d.sound_night_db i +
    (if d.mask_noisy_night i then d.noisy_night_extra (maskRank d.mask_noisy_night i) else 0)
  let light_day_lux := if d.mask_circadian_bad i
    then d.circadian_day_lux (maskRank d.mask_circadian_bad i)
    else d.light_day_lux i
  let light_night_lux := if d.mask_circadian_bad i
    then d.circadian_night_lux (maskRank d.mask_circadian_bad i)
    else d.light_night_lux i
  let hr_mean := d.hr_mean i +
    (if d.mask_tachy i then d.tachy_extra (maskRank d.mask_tachy i) else 0)
  let temp_mean := d.temp_mean i +
    (if d.mask_fever i then d.fever_extra (maskRank d.mask_fever i) else 0)
  let age := np_clip (d.age i) 18 100
  let res := compute_delirium_risk_row sound_mean_db sound_night_db
    light_day_lux light_night_lux hr_mean temp_mean age defaultConfig
  ⟨d.patient_ids i, i, sound_mean_db, sound_night_db, light_day_lux,
   light_night_lux, hr_mean, temp_mean, age, res.risk, res.label⟩

/-- The generated table: `window_id` is the dense sequence `0..N-1`, each row
synthesized and labeled by `genRow`. -/
def generate_synthetic_data (d : GenDraws) : List Row :=
  (List.range N).map (genRow d)

/-- Column order of the DataFrame constructed by the generator. -/
def input_columns : List String :=
  ["patient_id", "window_id", "sound_mean_db", "sound_night_db",
   "light_day_lux", "light_night_lux", "hr_mean", "temp_mean", "age"]

/-- Column order of the persisted CSV: the input columns followed by the two
derived columns appended by `compute_delirium_risk_df`. -/
def csv_header_columns : List String :=
  input_columns ++ ["delirium_risk", "delirium_label"]

/-- C9: for every sequence of random draws the generator yields exactly
100000 rows whose `window_id` column is the dense sequence `0..99999` in
order, every row's age lies in `[18, 100]`, and the CSV header columns are in
the exact specified order. -/
theorem generator_shape (d : GenDraws) (row : Row)
    (hrow : row ∈ generate_synthetic_data d) :
    (generate_synthetic_data d).length = 100000 ∧
    (generate_synthetic_data d).map Row.window_id = List.range 100000 ∧
    (18 ≤ row.age ∧ row.age ≤ 100) ∧
    csv_header_columns = ["patient_id", "window_id", "sound_mean_db",
      "sound_night_db", "light_day_lux", "light_night_lux", "hr_mean",
      "temp_mean", "age", "delirium_risk", "delirium_label"] := by
  refine ⟨?_, ?_, ?_, rfl⟩
  · simp [generate_synthetic_data, N]
  · show ((List.range N).map (genRow d)).map Row.window_id = List.range 100000
    rw [List.map_map]
    have hcomp : (Row.window_id ∘ genRow d) = fun i => i := by
      funext i; rfl
    rw [hcomp]
    exact List.map_id _
  · obtain ⟨i, _, hi⟩ := List.mem_map.mp hrow
    subst hi
    constructor
    · exact le_min (by norm_num) (le_max_right _ _)
    · exact min_le_left _ _

/-- All-constant random draws used as the C9 witness instance. -/
def zeroDraws : GenDraws :=
  ⟨fun _ => 1, fun _ => 0, fun _ => 0, fun _ => false, fun _ => 0,
   fun _ => 0, fun _ => 0, fun _ => false, fun _ => 0, fun _ => 0,
   fun _ => 0, fun _ => false, fun _ => 0, fun _ => 0, fun _ => false,
   fun _ => 0, fun _ => 0⟩

/-- Witness for C9: with all-constant draws the table has 100000 rows and
its first row's age is within `[18, 100]`. -/
theorem generator_shape_witness :
    (generate_synthetic_data zeroDraws).length = 100000 ∧
    18 ≤ (genRow zeroDraws 0).age ∧ (genRow zeroDraws 0).age ≤ 100 :=
  have hmem : genRow zeroDraws 0 ∈ generate_synthetic_data zeroDraws :=
    List.mem_map.mpr ⟨0, List.mem_range.mpr (by norm_num [N]), rfl⟩
  ⟨(generator_shape zeroDraws (genRow zeroDraws 0) hmem).1,
   (generator_shape zeroDraws (genRow zeroDraws 0) hmem).2.2.1.1,
   (generator_shape zeroDraws (genRow zeroDraws 0) hmem).2.2.1.2⟩
